import Mathlib

/-!
Verification development for the `azurerm_storage_container` resource
(file `azurerm/resource_arm_storage_container.go`): identity codec,
validators, retry wrapper and the Create/Read/Exists/Delete operations,
shallowly embedded as executable Lean definitions.
-/

namespace StorageContainer

/-- Go errors are modelled by their message strings. -/
abbrev GoError := String

/-- Result of a Go call returning a value and an error: exactly one of the
two is meaningful, matching how the source checks `err != nil` first. -/
inductive GoResult (α : Type) where
  | ok (a : α)
  | err (e : GoError)
deriving DecidableEq, Repr

/-- Split a character list at every occurrence of the separator, keeping
empty pieces, as Go strings.Split does with a one-character separator:
the result always has (number of separators + 1) pieces, never zero. -/
def splitOnChar (sep : Char) : List Char → List (List Char)
  | [] => [[]]
  | c :: rest =>
    if c = sep then [] :: splitOnChar sep rest
    else
      match splitOnChar sep rest with
      | [] => [[c]]
      | g :: gs => (c :: g) :: gs

/-- Replace the first occurrence of the pattern (assumed nonempty) in the
list, as Go strings.Replace with n = 1; no occurrence leaves the list
unchanged. -/
def replaceFirstList (pat repl : List Char) : List Char → List Char
  | [] => []
  | c :: rest =>
    if pat.isPrefixOf (c :: rest) then repl ++ (c :: rest).drop pat.length
    else c :: replaceFirstList pat repl rest

/-- Go strings.Replace(s, pat, repl, 1) on strings. -/
def goReplaceFirst (s pat repl : String) : String :=
  String.mk (replaceFirstList pat.toList repl.toList s.toList)

/-- Go strings.ToLower, restricted to ASCII case mapping (all inputs the
source compares against are ASCII). -/
def goToLower (s : String) : String :=
  String.mk (s.toList.map Char.toLower)

/-- Byte length of a character in UTF-8, as Go len counts string bytes. -/
def charUtf8Len (c : Char) : Nat :=
  if c.val < 0x80 then 1
  else if c.val < 0x800 then 2
  else if c.val < 0x10000 then 3
  else 4

/-- Go len(s): the UTF-8 byte length of the string. -/
def goLen (s : String) : Nat :=
  s.toList.foldl (fun n c => n + charUtf8Len c) 0

/-! ## Validators (source lines 59 to 89) -/

/-- The distinct validation failures the two validators can append; the
source appends formatted error values, modelled here by which rule fired. -/
inductive ValidationError where
  | invalidChars
  | badLength
  | leadingHyphen
  | invalidAccessType
deriving DecidableEq, Repr

/-- A character allowed by the character class [0-9a-z-] of the name
regular expression. -/
def isNameChar (c : Char) : Bool :=
  (('0' ≤ c && c ≤ '9') || ('a' ≤ c && c ≤ 'z')) || c == '-'

/-- Whether the anchored regular expression matching either the literal
dollar-root name or one-or-more characters of [0-9a-z-] accepts the whole
value (both alternatives are anchored at both ends, so MatchString holds
exactly on a full match). -/
def matchesContainerNameRegex (v : String) : Bool :=
  v == "$root" || (!v.toList.isEmpty && v.toList.all isNameChar)

/-- Whether the value begins with a hyphen, the anchored leading-hyphen
regular expression of the source. -/
def startsWithHyphen (v : String) : Bool :=
  match v.toList with
  | '-' :: _ => true
  | _ => false

/-- validateArmStorageContainerName: appends one error per violated rule,
in source order: character set, then byte length in [3,63], then leading
hyphen. -/
def validateArmStorageContainerName (value : String) : List ValidationError :=
  (if matchesContainerNameRegex value then [] else [ValidationError.invalidChars]) ++
  (if goLen value < 3 || goLen value > 63 then [ValidationError.badLength] else []) ++
  (if startsWithHyphen value then [ValidationError.leadingHyphen] else [])

/-- validateArmStorageContainerAccessType: lowercases the value and checks
membership in the set of the three valid access types. -/
def validateArmStorageContainerAccessType (value : String) : List ValidationError :=
  let v := goToLower value
  if v == "private" || v == "blob" || v == "container" then []
  else [ValidationError.invalidAccessType]

/-! ## Identity codec (source lines 132 and 297 to 321) -/

/-- The structured resource identity: storage account name and container
name (source type storageContainerId). -/
structure StorageContainerId where
  storageAccountName : String
  containerName : String
deriving DecidableEq, Repr

/-- The host and path components of a parsed URL, the only components the
source reads. -/
structure GoURL where
  host : String
  path : String
deriving DecidableEq, Repr

/-- An ASCII control byte, on which Go net/url.Parse reports an error. -/
def isCtlChar (c : Char) : Bool :=
  c.toNat < 0x20 || c.toNat == 0x7f

/-- Go net/url.Parse restricted to the shapes the program feeds it: an
input containing an ASCII control character fails; an input of the form
https scheme, authority, optional path (without percent escapes, query,
fragment or userinfo) splits into host and slash-prefixed path; a
schemeless input without special characters parses with empty host and
the whole input as path. -/
def urlParse (s : String) : Option GoURL :=
  if s.toList.any isCtlChar then none
  else if List.isPrefixOf "https://".toList s.toList then
    let rest := s.toList.drop 8
    some { host := String.mk (rest.takeWhile (fun c => !(c == '/'))),
           path := String.mk (rest.dropWhile (fun c => !(c == '/'))) }
  else some { host := "", path := s }

/-- The identity string built at the end of Create (source line 132):
https scheme, account, dot, endpoint suffix, slash, container name. -/
def encodeStorageContainerID (account suffix name : String) : String :=
  "https://" ++ account ++ "." ++ suffix ++ "/" ++ name

/-- parseStorageContainerID: parse the input as a URL, split its path on
the slash character, fail if that yields fewer than one segment, strip
the first occurrence of dot-plus-suffix from the host for the account
name, and take the first split segment as the container name. -/
def parseStorageContainerID (input : String) (suffix : String) : Option StorageContainerId :=
  match urlParse input with
  | none => none
  | some uri =>
    let segments := splitOnChar '/' uri.path.toList
    if segments.length < 1 then none
    else
      let storageAccountName := goReplaceFirst uri.host ("." ++ suffix) ""
      let containerName := String.mk (segments.headD [])
      some { storageAccountName := storageAccountName, containerName := containerName }

/-! ## Retry scheduler and the create step (source lines 118 and 285 to 295) -/

/-- A step outcome handed to the retry helper: a retryable error asks for
another attempt, a non-retryable one aborts (terraform helper resource
RetryableError and NonRetryableError). -/
inductive RetryError where
  | retryable (e : GoError)
  | nonRetryable (e : GoError)
deriving DecidableEq, Repr

/-- Final outcome of the retry helper. -/
inductive RetryOutcome where
  | ok
  | fatal (e : GoError)
  | timedOut (e : GoError)
deriving DecidableEq, Repr

/-- Modelled from the spec: the Retry Scheduler retryUntil of the external
terraform retry helper, at one-attempt-per-second granularity. The step
function is indexed by the attempt number; success stops with ok, a
non-retryable error aborts at once, a retryable error retries while fuel
remains and otherwise times out. Returns the outcome and the number of
attempts made; at least one attempt happens even with zero fuel. -/
def retryUntil (op : Nat → Option RetryError) : Nat → Nat → RetryOutcome × Nat
  | fuel, n =>
    match op n with
    | none => (RetryOutcome.ok, n + 1)
    | some (RetryError.nonRetryable e) => (RetryOutcome.fatal e, n + 1)
    | some (RetryError.retryable e) =>
      match fuel with
      | 0 => (RetryOutcome.timedOut e, n + 1)
      | f + 1 => retryUntil op f (n + 1)

/-- resource.Retry with a timeout in seconds: run the step from attempt
zero with that much fuel. -/
def resourceRetry (timeoutSec : Nat) (op : Nat → Option RetryError) : RetryOutcome × Nat :=
  retryUntil op timeoutSec 0

/-- Modelled from the spec: the two remote-failure kinds of the gateway
contract, transient (retry-worthy) versus fatal (not retry-worthy); the
Go SDK call itself surfaces both as a bare error value. -/
inductive RemoteErr where
  | transient (e : GoError)
  | fatal (e : GoError)
deriving DecidableEq, Repr

/-- The underlying Go error message of a remote failure. -/
def RemoteErr.underlying : RemoteErr → GoError
  | RemoteErr.transient e => e
  | RemoteErr.fatal e => e

/-- checkContainerIsCreated: runs CreateIfNotExists and wraps any error,
of either kind, as a retryable error; success yields no retry error. -/
def checkContainerIsCreated (res : Option RemoteErr) : Option RetryError :=
  match res with
  | none => none
  | some e => some (RetryError.retryable e.underlying)

/-! ## Remote gateway and engine state -/

/-- A container entry returned by the remote listing, with the four
properties the source projects. -/
structure ContainerInfo where
  name : String
  lastModified : String
  leaseStatus : String
  leaseState : String
  leaseDuration : String
deriving DecidableEq, Repr

/-- Modelled from the spec: the Remote Gateway Adapter, the external
capability interface the engine calls (account and resource-group
resolution, container create, list, exists, delete, set-permissions).
A Gateway value fixes the remote responses one reconcile call observes. -/
structure Gateway where
  resolveResourceGroup : String → GoResult (Option String)
  accountExists : String → String → GoResult Bool
  listContainers : String → GoResult (List ContainerInfo)
  containerExists : String → GoResult Bool
  deleteIfExists : String → GoResult Bool
  createIfNotExists : Nat → Option RemoteErr
  setPermissions : String → Option GoError

/-- The validated configuration values Create reads from the schema. -/
structure DesiredConfig where
  name : String
  resourceGroupName : String
  storageAccountName : String
  containerAccessType : String
deriving DecidableEq, Repr

/-- The access-type wire value computed at source lines 108 to 113: the
exact string private becomes the empty-string sentinel, anything else is
passed through unchanged. -/
def computeAccessType (v : String) : String :=
  if v == "private" then "" else v

/-- projection of the four container properties into the output map
(source lines 190 to 195). -/
def projectProperties (c : ContainerInfo) : List (String × String) :=
  [("last_modified", c.lastModified), ("lease_status", c.leaseStatus),
   ("lease_state", c.leaseState), ("lease_duration", c.leaseDuration)]

/-- Result of a Read call: the returned error if any, the identity left in
state afterwards, and the projected properties when a container was found. -/
structure ReadResult where
  result : GoResult Unit
  newId : String
  props : Option (List (String × String))
deriving DecidableEq, Repr

/-- resourceArmStorageContainerRead: parse the identity, resolve the
resource group (a nil group clears the identity and succeeds), resolve
the account (absence clears the identity and succeeds), list containers
by the container-name prefix, linearly scan for the first exact name
match (no match clears the identity and succeeds), and on a match set
the projected properties. -/
def resourceArmStorageContainerRead (currentId : String) (suffix : String)
    (g : Gateway) : ReadResult :=
  match parseStorageContainerID currentId suffix with
  | none => { result := GoResult.err "parse error", newId := currentId, props := none }
  | some id =>
    match g.resolveResourceGroup id.storageAccountName with
    | GoResult.err e => { result := GoResult.err e, newId := currentId, props := none }
    | GoResult.ok none => { result := GoResult.ok (), newId := "", props := none }
    | GoResult.ok (some group) =>
      match g.accountExists group id.storageAccountName with
      | GoResult.err e => { result := GoResult.err e, newId := currentId, props := none }
      | GoResult.ok false => { result := GoResult.ok (), newId := "", props := none }
      | GoResult.ok true =>
        match g.listContainers id.containerName with
        | GoResult.err e =>
          { result := GoResult.err ("Failed to retrieve storage containers: " ++ e),
            newId := currentId, props := none }
        | GoResult.ok containers =>
          match containers.find? (fun c => c.name == id.containerName) with
          | none => { result := GoResult.ok (), newId := "", props := none }
          | some c =>
            { result := GoResult.ok (), newId := currentId,
              props := some (projectProperties c) }

/-- Result of an Exists call: the returned boolean or error, and the
identity left in state afterwards. -/
structure ExistsResult where
  result : GoResult Bool
  newId : String
deriving DecidableEq, Repr

/-- resourceArmStorageContainerExists: parse the identity, resolve the
resource group (a nil group returns false leaving the identity alone),
resolve the account (absence clears the identity and returns false), and
otherwise delegate to the gateway existence probe on the exact container
name, leaving the identity alone. -/
def resourceArmStorageContainerExists (currentId : String) (suffix : String)
    (g : Gateway) : ExistsResult :=
  match parseStorageContainerID currentId suffix with
  | none => { result := GoResult.err "parse error", newId := currentId }
  | some id =>
    match g.resolveResourceGroup id.storageAccountName with
    | GoResult.err e => { result := GoResult.err e, newId := currentId }
    | GoResult.ok none => { result := GoResult.ok false, newId := currentId }
    | GoResult.ok (some group) =>
      match g.accountExists group id.storageAccountName with
      | GoResult.err e => { result := GoResult.err e, newId := currentId }
      | GoResult.ok false => { result := GoResult.ok false, newId := "" }
      | GoResult.ok true =>
        match g.containerExists id.containerName with
        | GoResult.err e =>
          { result := GoResult.err ("Error querying existence: " ++ e), newId := currentId }
        | GoResult.ok b => { result := GoResult.ok b, newId := currentId }

/-- Result of a Delete call: the returned error if any and whether the
gateway DeleteIfExists was invoked. -/
structure DeleteResult where
  result : GoResult Unit
  calledDeleteIfExists : Bool
deriving DecidableEq, Repr

/-- resourceArmStorageContainerDelete: parse the identity, resolve the
resource group (a nil group succeeds without deleting), resolve the
account (absence succeeds without deleting), and otherwise invoke
DeleteIfExists, failing only when that call itself errors. -/
def resourceArmStorageContainerDelete (currentId : String) (suffix : String)
    (g : Gateway) : DeleteResult :=
  match parseStorageContainerID currentId suffix with
  | none => { result := GoResult.err "parse error", calledDeleteIfExists := false }
  | some id =>
    match g.resolveResourceGroup id.storageAccountName with
    | GoResult.err e => { result := GoResult.err e, calledDeleteIfExists := false }
    | GoResult.ok none => { result := GoResult.ok (), calledDeleteIfExists := false }
    | GoResult.ok (some group) =>
      match g.accountExists group id.storageAccountName with
      | GoResult.err e => { result := GoResult.err e, calledDeleteIfExists := false }
      | GoResult.ok false => { result := GoResult.ok (), calledDeleteIfExists := false }
      | GoResult.ok true =>
        match g.deleteIfExists id.containerName with
        | GoResult.err e =>
          { result := GoResult.err ("Error deleting storage container: " ++ e),
            calledDeleteIfExists := true }
        | GoResult.ok _ => { result := GoResult.ok (), calledDeleteIfExists := true }

/-- Result of a Create call: the returned error if any, the identity left
in state, and the access-type argument SetPermissions was called with
(none when SetPermissions was never reached). -/
structure CreateResult where
  result : GoResult Unit
  newId : String
  setPermissionsArg : Option String
deriving DecidableEq, Repr

/-- resourceArmStorageContainerCreate: resolve the account under the
configured resource group (an error or absence fails), compute the
access-type wire value, run CreateIfNotExists under resource.Retry with a
120-second timeout through checkContainerIsCreated (failure aborts Create
before SetPermissions and before the identity is set), then call
SetPermissions, set the identity to the encoded URI and finish by
invoking Read on it. -/
def resourceArmStorageContainerCreate (cfg : DesiredConfig) (suffix : String)
    (g : Gateway) (initialId : String) : CreateResult :=
  match g.accountExists cfg.resourceGroupName cfg.storageAccountName with
  | GoResult.err e => { result := GoResult.err e, newId := initialId, setPermissionsArg := none }
  | GoResult.ok false =>
    { result := GoResult.err ("Storage Account " ++ cfg.storageAccountName ++ " Not Found"),
      newId := initialId, setPermissionsArg := none }
  | GoResult.ok true =>
    let accessType := computeAccessType cfg.containerAccessType
    match (resourceRetry 120 (fun n => checkContainerIsCreated (g.createIfNotExists n))).1 with
    | RetryOutcome.ok =>
      match g.setPermissions accessType with
      | some e =>
        { result := GoResult.err ("Error setting permissions: " ++ e),
          newId := initialId, setPermissionsArg := some accessType }
      | none =>
        let id := encodeStorageContainerID cfg.storageAccountName suffix cfg.name
        let r := resourceArmStorageContainerRead id suffix g
        { result := r.result, newId := r.newId, setPermissionsArg := some accessType }
    | RetryOutcome.fatal e =>
      { result := GoResult.err ("Error creating container: " ++ e),
        newId := initialId, setPermissionsArg := none }
    | RetryOutcome.timedOut e =>
      { result := GoResult.err ("Error creating container: " ++ e),
        newId := initialId, setPermissionsArg := none }

/-! ## Concrete gateways used to exercise the operations -/

/-- A gateway whose parents resolve and whose calls all succeed: the
resource group resolves, the account exists, the listing returns a single
sibling entry, the direct existence probe reports absent, delete reports
the container was absent, create succeeds at once and set-permissions
succeeds. -/
def baseGateway : Gateway :=
  { resolveResourceGroup := fun _ => GoResult.ok (some "rg"),
    accountExists := fun _ _ => GoResult.ok true,
    listContainers := fun _ => GoResult.ok
      [{ name := "abc-sibling", lastModified := "lm", leaseStatus := "unlocked",
         leaseState := "available", leaseDuration := "" }],
    containerExists := fun _ => GoResult.ok false,
    deleteIfExists := fun _ => GoResult.ok false,
    createIfNotExists := fun _ => none,
    setPermissions := fun _ => none }

/-- baseGateway with the resource-group resolution reporting absent. -/
def gatewayGroupAbsent : Gateway :=
  { baseGateway with resolveResourceGroup := fun _ => GoResult.ok none }

/-- baseGateway with the storage account reported absent. -/
def gatewayAccountAbsent : Gateway :=
  { baseGateway with accountExists := fun _ _ => GoResult.ok false }

/-- baseGateway whose remote create reports a transient failure at every
attempt. -/
def gatewayAlwaysTransient : Gateway :=
  { baseGateway with createIfNotExists := fun _ => some (RemoteErr.transient "lag") }

/-! ## Helper lemmas -/

/-- Splitting never produces an empty list of pieces. -/
theorem splitOnChar_ne_nil (sep : Char) (l : List Char) : splitOnChar sep l ≠ [] := by
  induction l with
  | nil => simp [splitOnChar]
  | cons c rest ih =>
    simp only [splitOnChar]
    split
    · simp
    · cases h : splitOnChar sep rest <;> simp

/-- When the step errors retryably at every attempt, the retry helper
spends all its fuel and times out with the last underlying error, making
fuel plus one attempts. -/
theorem retryUntil_always_retryable (f : Nat → GoError) (fuel : Nat) :
    ∀ n, retryUntil (fun m => some (RetryError.retryable (f m))) fuel n
      = (RetryOutcome.timedOut (f (n + fuel)), n + fuel + 1) := by
  induction fuel with
  | zero => intro n; simp [retryUntil]
  | succ k ih =>
    intro n
    have h := ih (n + 1)
    have harg : n + 1 + k = n + (k + 1) := by omega
    rw [harg] at h
    simp [retryUntil, h]

/-! ## Claim theorems -/

/-- C1: the identity codec does not round-trip. For the valid pair of
account acct and container abc under suffix core.windows.net, decoding
the identity string that Create builds yields the empty container name
(the first piece of splitting the slash-prefixed path), not abc: the
parser omits trimming the leading slash before splitting. -/
theorem roundtrip_fails_c1 :
    parseStorageContainerID
        (encodeStorageContainerID "acct" "core.windows.net" "abc") "core.windows.net"
      ≠ some { storageAccountName := "acct", containerName := "abc" } ∧
    parseStorageContainerID
        (encodeStorageContainerID "acct" "core.windows.net" "abc") "core.windows.net"
      = some { storageAccountName := "acct", containerName := "" } := by
  decide

/-- C2, counterexample: a remote create failing fatally at every attempt
does not make the retry loop abort after a single attempt; with the
120-second timeout the loop makes 121 attempts and ends by timing out,
because checkContainerIsCreated wraps the fatal error as retryable. -/
theorem retry_fatal_not_aborted_c2 :
    (resourceRetry 120 (fun _ => checkContainerIsCreated (some (RemoteErr.fatal "forbidden")))).2 ≠ 1 ∧
    (resourceRetry 120 (fun _ => checkContainerIsCreated (some (RemoteErr.fatal "forbidden")))).1
      = RetryOutcome.timedOut "forbidden" := by
  decide

/-- C2, amended: checkContainerIsCreated never signals a non-retryable
error, so any persistently failing remote create, of either error kind,
is retried through the whole 120-second budget (121 attempts) and ends in
a timeout rather than an early abort. -/
theorem retry_treats_all_errors_retryable_c2 :
    (∀ r e, checkContainerIsCreated r ≠ some (RetryError.nonRetryable e)) ∧
    (∀ f : Nat → RemoteErr,
      resourceRetry 120 (fun n => checkContainerIsCreated (some (f n)))
        = (RetryOutcome.timedOut (f 120).underlying, 121)) := by
  constructor
  · intro r e h
    cases r with
    | none => simp [checkContainerIsCreated] at h
    | some x => simp [checkContainerIsCreated] at h
  · intro f
    have h := retryUntil_always_retryable (fun m => (f m).underlying) 120 0
    simpa [resourceRetry, checkContainerIsCreated] using h

/-- C4: whenever the character-set rule, the length rule or the
leading-hyphen rule is violated, name validation returns a nonempty list
with exactly one entry per violated rule, each violation contributing its
own entry. -/
theorem name_validation_accumulates_c4 (v : String)
    (h : matchesContainerNameRegex v = false ∨
         (goLen v < 3 || goLen v > 63) = true ∨
         startsWithHyphen v = true) :
    validateArmStorageContainerName v ≠ [] ∧
    (validateArmStorageContainerName v).length =
      ((if matchesContainerNameRegex v then 0 else 1) +
       (if goLen v < 3 || goLen v > 63 then 1 else 0) +
       (if startsWithHyphen v then 1 else 0)) ∧
    (ValidationError.invalidChars ∈ validateArmStorageContainerName v ↔
      matchesContainerNameRegex v = false) ∧
    (ValidationError.badLength ∈ validateArmStorageContainerName v ↔
      (goLen v < 3 || goLen v > 63) = true) ∧
    (ValidationError.leadingHyphen ∈ validateArmStorageContainerName v ↔
      startsWithHyphen v = true) := by
  unfold validateArmStorageContainerName
  cases hr : matchesContainerNameRegex v <;>
    cases hl : (goLen v < 3 || goLen v > 63) <;>
      cases hh : startsWithHyphen v <;>
        simp_all

/-- C4, witness: the name of a single hyphen then the letter a violates
the length rule and the leading-hyphen rule, yielding exactly those two
violations. -/
theorem name_validation_witness_c4 :
    validateArmStorageContainerName "-a" ≠ [] ∧
    (validateArmStorageContainerName "-a").length = 2 ∧
    ValidationError.badLength ∈ validateArmStorageContainerName "-a" ∧
    ValidationError.leadingHyphen ∈ validateArmStorageContainerName "-a" := by
  obtain ⟨h1, h2, h3, h4, h5⟩ :=
    name_validation_accumulates_c4 "-a" (Or.inr (Or.inl (by decide)))
  refine ⟨h1, ?_, h4.mpr (by decide), h5.mpr (by decide)⟩
  rw [h2]
  decide

/-- C8: access-type validation accepts exactly the strings whose
lowercasing is private, blob or container, and returns the invalid
access-type error for every other string. -/
theorem access_type_validation_c8 (v : String) :
    (validateArmStorageContainerAccessType v = [] ↔
      (goToLower v = "private" ∨ goToLower v = "blob" ∨ goToLower v = "container")) ∧
    (validateArmStorageContainerAccessType v = [] ∨
      validateArmStorageContainerAccessType v = [ValidationError.invalidAccessType]) := by
  unfold validateArmStorageContainerAccessType
  by_cases h1 : goToLower v = "private" <;>
    by_cases h2 : goToLower v = "blob" <;>
      by_cases h3 : goToLower v = "container" <;>
        simp_all

/-- C3: on a decodable identity, Read clears the persisted identity and
returns success whenever the resource group resolves to nil, or the
account is reported absent, or the prefix listing holds no entry whose
name exactly equals the decoded container name (entries merely sharing
the prefix do not count as a match). -/
theorem read_drift_clears_state_c3 (currentId suffix : String) (g : Gateway)
    (id : StorageContainerId)
    (hparse : parseStorageContainerID currentId suffix = some id)
    (hdrift :
      g.resolveResourceGroup id.storageAccountName = GoResult.ok none ∨
      (∃ group, g.resolveResourceGroup id.storageAccountName = GoResult.ok (some group) ∧
        g.accountExists group id.storageAccountName = GoResult.ok false) ∨
      (∃ group cs, g.resolveResourceGroup id.storageAccountName = GoResult.ok (some group) ∧
        g.accountExists group id.storageAccountName = GoResult.ok true ∧
        g.listContainers id.containerName = GoResult.ok cs ∧
        ∀ c ∈ cs, c.name ≠ id.containerName)) :
    (resourceArmStorageContainerRead currentId suffix g).result = GoResult.ok () ∧
    (resourceArmStorageContainerRead currentId suffix g).newId = "" := by
  rcases hdrift with h | ⟨group, h1, h2⟩ | ⟨group, cs, h1, h2, h3, h4⟩
  · simp [resourceArmStorageContainerRead, hparse, h]
  · simp [resourceArmStorageContainerRead, hparse, h1, h2]
  · have hfind : cs.find? (fun c => c.name == id.containerName) = none := by
      apply List.find?_eq_none.mpr
      intro c hc
      simpa using h4 c hc
    simp [resourceArmStorageContainerRead, hparse, h1, h2, h3, hfind]

/-- C3, witness: on the decodable identity abc, with the group and account
present and the listing returning only the prefix-sharing sibling
abc-sibling, Read returns success and clears the identity. -/
theorem read_drift_witness_c3 :
    (resourceArmStorageContainerRead "abc" "core.windows.net" baseGateway).result
      = GoResult.ok () ∧
    (resourceArmStorageContainerRead "abc" "core.windows.net" baseGateway).newId = "" := by
  apply read_drift_clears_state_c3 "abc" "core.windows.net" baseGateway
      { storageAccountName := "", containerName := "abc" } (by decide)
  exact Or.inr (Or.inr ⟨"rg",
    [{ name := "abc-sibling", lastModified := "lm", leaseStatus := "unlocked",
       leaseState := "available", leaseDuration := "" }],
    by decide, by decide, by decide, by decide⟩)

/-- C5, counterexample: the access type Private, which is case-insensitively
private, is not mapped to the empty-string sentinel by Create; with every
remote call succeeding, SetPermissions receives Private unchanged. -/
theorem access_sentinel_case_sensitive_c5 :
    goToLower "Private" = "private" ∧
    (resourceArmStorageContainerCreate
        { name := "abc", resourceGroupName := "rg", storageAccountName := "acct",
          containerAccessType := "Private" }
        "core.windows.net" baseGateway "").setPermissionsArg = some "Private" ∧
    some "Private" ≠ some "" := by
  decide

/-- C5, amended: when Create reaches the permission step, SetPermissions
receives the computed wire value, and that computation maps exactly the
string private, compared case-sensitively, to the empty-string sentinel,
passing every other string through unchanged. -/
theorem access_sentinel_exact_match_c5 (cfg : DesiredConfig)
    (suffix initialId : String) (g : Gateway)
    (hacct : g.accountExists cfg.resourceGroupName cfg.storageAccountName = GoResult.ok true)
    (hretry : (resourceRetry 120
        (fun n => checkContainerIsCreated (g.createIfNotExists n))).1 = RetryOutcome.ok) :
    (resourceArmStorageContainerCreate cfg suffix g initialId).setPermissionsArg =
      some (computeAccessType cfg.containerAccessType) ∧
    (cfg.containerAccessType = "private" → computeAccessType cfg.containerAccessType = "") ∧
    (cfg.containerAccessType ≠ "private" →
      computeAccessType cfg.containerAccessType = cfg.containerAccessType) := by
  refine ⟨?_, ?_, ?_⟩
  · simp only [resourceArmStorageContainerCreate, hacct, hretry]
    cases g.setPermissions (computeAccessType cfg.containerAccessType) <;> simp
  · intro h
    simp [computeAccessType, h]
  · intro h
    simp [computeAccessType, h]

/-- C5, witness for the amended claim: with every remote call succeeding,
the exact lowercase access type private reaches SetPermissions as the
empty-string sentinel. -/
theorem access_sentinel_witness_c5 :
    (resourceArmStorageContainerCreate
        { name := "abc", resourceGroupName := "rg", storageAccountName := "acct",
          containerAccessType := "private" }
        "core.windows.net" baseGateway "").setPermissionsArg = some "" := by
  have h := access_sentinel_exact_match_c5
    { name := "abc", resourceGroupName := "rg", storageAccountName := "acct",
      containerAccessType := "private" }
    "core.windows.net" "" baseGateway (by decide) (by decide)
  rw [h.1, h.2.1 rfl]

/-- C6: when account resolution succeeds but the retry loop around the
remote create exhausts its 120-second timeout, Create returns a
creation-failure error, SetPermissions is never called and the persisted
identity is left exactly as it was. -/
theorem create_timeout_atomic_c6 (cfg : DesiredConfig)
    (suffix initialId : String) (g : Gateway) (e : GoError)
    (hacct : g.accountExists cfg.resourceGroupName cfg.storageAccountName = GoResult.ok true)
    (hretry : (resourceRetry 120
        (fun n => checkContainerIsCreated (g.createIfNotExists n))).1
      = RetryOutcome.timedOut e) :
    (resourceArmStorageContainerCreate cfg suffix g initialId).result =
      GoResult.err ("Error creating container: " ++ e) ∧
    (resourceArmStorageContainerCreate cfg suffix g initialId).setPermissionsArg = none ∧
    (resourceArmStorageContainerCreate cfg suffix g initialId).newId = initialId := by
  simp [resourceArmStorageContainerCreate, hacct, hretry]

/-- C6, witness: a remote create reporting a transient failure at every
attempt for the whole 120-second budget makes Create fail with the
creation error, with no SetPermissions call and the identity still the
initial empty string. -/
theorem create_timeout_witness_c6 :
    (resourceArmStorageContainerCreate
        { name := "abc", resourceGroupName := "rg", storageAccountName := "acct",
          containerAccessType := "private" }
        "core.windows.net" gatewayAlwaysTransient "").result =
      GoResult.err ("Error creating container: " ++ "lag") ∧
    (resourceArmStorageContainerCreate
        { name := "abc", resourceGroupName := "rg", storageAccountName := "acct",
          containerAccessType := "private" }
        "core.windows.net" gatewayAlwaysTransient "").setPermissionsArg = none ∧
    (resourceArmStorageContainerCreate
        { name := "abc", resourceGroupName := "rg", storageAccountName := "acct",
          containerAccessType := "private" }
        "core.windows.net" gatewayAlwaysTransient "").newId = "" := by
  exact create_timeout_atomic_c6
    { name := "abc", resourceGroupName := "rg", storageAccountName := "acct",
      containerAccessType := "private" }
    "core.windows.net" "" gatewayAlwaysTransient "lag" (by decide) (by decide)

/-- C7, counterexample: on the decodable identity abc, with the resource
group resolving but the account reported absent, Exists returns false
with no error yet clears the persisted identity to the empty string,
so Exists does not always leave the identity unmodified. -/
theorem exists_clears_on_account_absent_c7 :
    (resourceArmStorageContainerExists "abc" "core.windows.net" gatewayAccountAbsent).result
      = GoResult.ok false ∧
    (resourceArmStorageContainerExists "abc" "core.windows.net" gatewayAccountAbsent).newId
      = "" ∧
    "" ≠ "abc" := by
  decide

/-- C7, amended: on a decodable identity Exists returns false with no
error in all three absence cases, leaving the identity unmodified when
the resource group resolves to nil or when the container itself is
absent, but clearing it when the storage account is reported absent. -/
theorem exists_frame_c7 (currentId suffix : String) (g : Gateway)
    (id : StorageContainerId)
    (hparse : parseStorageContainerID currentId suffix = some id) :
    (g.resolveResourceGroup id.storageAccountName = GoResult.ok none →
      resourceArmStorageContainerExists currentId suffix g =
        { result := GoResult.ok false, newId := currentId }) ∧
    (∀ group, g.resolveResourceGroup id.storageAccountName = GoResult.ok (some group) →
      g.accountExists group id.storageAccountName = GoResult.ok false →
      resourceArmStorageContainerExists currentId suffix g =
        { result := GoResult.ok false, newId := "" }) ∧
    (∀ group, g.resolveResourceGroup id.storageAccountName = GoResult.ok (some group) →
      g.accountExists group id.storageAccountName = GoResult.ok true →
      g.containerExists id.containerName = GoResult.ok false →
      resourceArmStorageContainerExists currentId suffix g =
        { result := GoResult.ok false, newId := currentId }) := by
  refine ⟨fun h => ?_, fun group h1 h2 => ?_, fun group h1 h2 h3 => ?_⟩ <;>
    simp [resourceArmStorageContainerExists, hparse, *]

/-- C7, witness for the amended claim: with the group unresolved the
identity abc is kept, and with parents present but the container absent
the identity is also kept, Exists returning false in both cases. -/
theorem exists_frame_witness_c7 :
    (resourceArmStorageContainerExists "abc" "core.windows.net" gatewayGroupAbsent =
      { result := GoResult.ok false, newId := "abc" }) ∧
    (resourceArmStorageContainerExists "abc" "core.windows.net" baseGateway =
      { result := GoResult.ok false, newId := "abc" }) := by
  constructor
  · exact (exists_frame_c7 "abc" "core.windows.net" gatewayGroupAbsent
      { storageAccountName := "", containerName := "abc" } (by decide)).1 (by decide)
  · exact (exists_frame_c7 "abc" "core.windows.net" baseGateway
      { storageAccountName := "", containerName := "abc" } (by decide)).2.2
      "rg" (by decide) (by decide) (by decide)

/-- C9: on a decodable identity, Delete succeeds without calling the
gateway delete when the resource group resolves to nil or the account is
absent, and with both parents present any successful DeleteIfExists
outcome, including the container having been absent, yields success. -/
theorem delete_noop_missing_parent_c9 (currentId suffix : String) (g : Gateway)
    (id : StorageContainerId)
    (hparse : parseStorageContainerID currentId suffix = some id) :
    (g.resolveResourceGroup id.storageAccountName = GoResult.ok none →
      resourceArmStorageContainerDelete currentId suffix g =
        { result := GoResult.ok (), calledDeleteIfExists := false }) ∧
    (∀ group, g.resolveResourceGroup id.storageAccountName = GoResult.ok (some group) →
      g.accountExists group id.storageAccountName = GoResult.ok false →
      resourceArmStorageContainerDelete currentId suffix g =
        { result := GoResult.ok (), calledDeleteIfExists := false }) ∧
    (∀ group existed, g.resolveResourceGroup id.storageAccountName = GoResult.ok (some group) →
      g.accountExists group id.storageAccountName = GoResult.ok true →
      g.deleteIfExists id.containerName = GoResult.ok existed →
      resourceArmStorageContainerDelete currentId suffix g =
        { result := GoResult.ok (), calledDeleteIfExists := true }) := by
  refine ⟨fun h => ?_, fun group h1 h2 => ?_, fun group existed h1 h2 h3 => ?_⟩ <;>
    simp [resourceArmStorageContainerDelete, hparse, *]

/-- C9, witness: with the group unresolved, Delete on the identity abc
succeeds without a gateway delete call, and with parents present and the
container already absent, Delete also succeeds. -/
theorem delete_noop_witness_c9 :
    (resourceArmStorageContainerDelete "abc" "core.windows.net" gatewayGroupAbsent =
      { result := GoResult.ok (), calledDeleteIfExists := false }) ∧
    (resourceArmStorageContainerDelete "abc" "core.windows.net" baseGateway =
      { result := GoResult.ok (), calledDeleteIfExists := true }) := by
  constructor
  · exact (delete_noop_missing_parent_c9 "abc" "core.windows.net" gatewayGroupAbsent
      { storageAccountName := "", containerName := "abc" } (by decide)).1 (by decide)
  · exact (delete_noop_missing_parent_c9 "abc" "core.windows.net" baseGateway
      { storageAccountName := "", containerName := "abc" } (by decide)).2.2
      "rg" false (by decide) (by decide) (by decide)

/-- C10: decoding fails when the input does not parse as a URL; splitting
the parsed path always yields at least one piece, so the fewer-than-one
segment failure can only hold vacuously; and in every successful case the
returned container name is the first piece of splitting the path on the
slash character, with the account name the host minus the first
occurrence of dot-plus-suffix. -/
theorem decode_failure_first_segment_c10 (input suffix : String) :
    (urlParse input = none → parseStorageContainerID input suffix = none) ∧
    (∀ uri, urlParse input = some uri →
      1 ≤ (splitOnChar '/' uri.path.toList).length ∧
      ((splitOnChar '/' uri.path.toList).length < 1 →
        parseStorageContainerID input suffix = none) ∧
      parseStorageContainerID input suffix =
        some { storageAccountName := goReplaceFirst uri.host ("." ++ suffix) "",
               containerName := String.mk ((splitOnChar '/' uri.path.toList).headD []) }) := by
  constructor
  · intro h
    simp [parseStorageContainerID, h]
  · intro uri h
    have hlen : 1 ≤ (splitOnChar '/' uri.path.toList).length :=
      List.length_pos.mpr (splitOnChar_ne_nil '/' uri.path.toList)
    refine ⟨hlen, fun hc => absurd hlen (by omega), ?_⟩
    simp only [parseStorageContainerID, h]
    rw [if_neg (by omega)]

/-- C10, witness: an input holding an ASCII control byte fails to decode,
and the well-formed identity of account acct and container abc decodes
with the account stripped of the suffix and the container name equal to
the first split piece of the path, the empty segment before the leading
slash. -/
theorem decode_witness_c10 :
    parseStorageContainerID "bad\x00uri" "core.windows.net" = none ∧
    parseStorageContainerID "https://acct.core.windows.net/abc" "core.windows.net" =
      some { storageAccountName := "acct", containerName := "" } := by
  constructor
  · exact (decode_failure_first_segment_c10 "bad\x00uri" "core.windows.net").1 (by decide)
  · have h := ((decode_failure_first_segment_c10
      "https://acct.core.windows.net/abc" "core.windows.net").2
      { host := "acct.core.windows.net", path := "/abc" } (by decide)).2.2
    rw [h]
    decide

end StorageContainer
